import Mathlib

/-! SyncSphere, post controllers.

A shallow embedding of `backend/controllers/post.controllers.js`.

The controllers talk to three Mongoose collections (users, posts,
notifications) and to the Cloudinary uploader.  The collections are lists of
documents in natural (insertion) order; a query by `_id` sees the first
document with that id, as does an `updateOne`.  ObjectIds are natural numbers.
The Cloudinary uploader is a log of the calls made to it, oldest first.

Every controller is a function from the state before the request to the HTTP
response and the state after it.
-/

namespace SyncSphere

/-- An ObjectId. -/
abbrev Id := Nat

/-! ## Documents -/

/-- Embedded comment of a post: `{user, text}`. -/
structure Comment where
  user : Id
  text : String
deriving DecidableEq, Repr

/-- Modelled from the spec: the Post schema (`models/post.model.js` is absent).
Fields are the ones the controllers read and write; the spec lists no
`title`, so `post.title` reads as `undefined`. -/
structure Post where
  _id : Id
  user : Id
  text : Option String
  img : Option String
  likes : List Id
  comments : List Comment
  createdAt : Nat
deriving DecidableEq, Repr

/-- Modelled from the spec: the User schema (`models/user.model.js` is
absent).  It has no field called `userId`. -/
structure User where
  _id : Id
  username : String
  password : String
  following : List Id
  likedPosts : List Id
deriving DecidableEq, Repr

/-- Modelled from the spec: the Notification schema
(`models/notification.model.js` is absent).  `icon` is optional: the
controllers pass `undefined` there.  The field `to` is written `to_`. -/
structure Notification where
  to_ : Id
  icon : Option String
  title : String
  text : String
  actionable_link : String
  display_date : Nat
  read : Bool
  category : String
deriving DecidableEq, Repr

/-- A call made to `cloudinary.uploader`. -/
inductive MediaCall where
  | upload (payload : String)
  | destroy (publicId : String)
deriving DecidableEq, Repr

/-- The three collections and the log of uploader calls. -/
structure State where
  users : List User
  posts : List Post
  notifications : List Notification
  media : List MediaCall
deriving DecidableEq, Repr

/-! ## Populated views -/

/-- A user document selected with `"-password"`. -/
structure PublicUser where
  _id : Id
  username : String
  following : List Id
  likedPosts : List Id
deriving DecidableEq, Repr

/-- A comment whose `user` path has been populated (`null` when the
referenced user is gone). -/
structure PopulatedComment where
  user : Option PublicUser
  text : String
deriving DecidableEq, Repr

/-- A post whose `user` and `comments.user` paths have been populated. -/
structure PopulatedPost where
  _id : Id
  user : Option PublicUser
  text : Option String
  img : Option String
  likes : List Id
  comments : List PopulatedComment
  createdAt : Nat
deriving DecidableEq, Repr

/-! ## Responses -/

/-- The JSON bodies the controllers send. -/
inductive Body where
  | error (msg : String)
  | message (msg : String)
  | likes (ids : List Id)
  | post (p : Post)
  | feed (ps : List PopulatedPost)
deriving DecidableEq, Repr

/-- Result of `res.status(code).json(body)`. -/
structure Response where
  status : Nat
  body : Body
deriving DecidableEq, Repr

/-! ## Collection primitives -/

/-- First document satisfying `sel`, rewritten by `f`; the rest untouched
(`Model.updateOne`). -/
def updateOne {α : Type} (sel : α → Bool) (f : α → α) : List α → List α
  | [] => []
  | x :: xs => if sel x then f x :: xs else x :: updateOne sel f xs

/-- First document satisfying `sel` removed (`Model.findByIdAndDelete`). -/
def deleteOne {α : Type} (sel : α → Bool) : List α → List α
  | [] => []
  | x :: xs => if sel x then xs else x :: deleteOne sel xs

/-- Counterpart of `Post.findById(id)`. -/
def Post.findById (posts : List Post) (id : Id) : Option Post :=
  posts.find? (fun p => p._id == id)

/-- Counterpart of `User.findById(id)`. -/
def User.findById (users : List User) (id : Id) : Option User :=
  users.find? (fun u => u._id == id)

/-- Counterpart of `User.findOne({username})`. -/
def User.findByUsername (users : List User) (username : String) : Option User :=
  users.find? (fun u => u.username == username)

/-- The `$pull` update operator on an array of ids: every occurrence goes. -/
def pull (xs : List Id) (x : Id) : List Id :=
  xs.filter (fun y => y != x)

/-- Counterpart of `doc.save()` on a fetched post: the stored document with
the same `_id` takes the in-memory value. -/
def Post.save (posts : List Post) (doc : Post) : List Post :=
  updateOne (fun p => p._id == doc._id) (fun _ => doc) posts

/-- JavaScript truthiness of an optional string (`undefined` and `""` are
falsy). -/
def truthy : Option String → Bool
  | none => false
  | some s => s != ""

/-! ## likePost -/

/-- The notification built in the like branch.  `userId` is an ObjectId, so
`userId.profileImg`, `userId.firstname` and `userId.lastname` are
`undefined`, and so is `post.title`. -/
def kudosNotification (now : Nat) (post : Post) (postId : Id) : Notification :=
  { to_ := post.user
    icon := none
    title := "New Kudos"
    text := "undefined undefined gave you Kudos on undefined!"
    actionable_link := "/post/" ++ toString postId
    display_date := now
    read := false
    category := "kudos" }

/-- Controller `likePost`; `userId` is `req.user._id`, `postId` is
`req.params.id`, `now` is the clock read by `new Date()`. -/
def likePost (now : Nat) (s : State) (userId postId : Id) : Response × State :=
  match Post.findById s.posts postId with
  | none => (⟨404, .error "Post not found"⟩, s)
  | some post =>
    let isLiked := post.likes.contains userId
    if isLiked then
      let posts1 := updateOne (fun p => p._id == postId)
        (fun p => { p with likes := pull p.likes userId }) s.posts
      let users1 := updateOne (fun u => u._id == userId)
        (fun u => { u with likedPosts := pull u.likedPosts postId }) s.users
      let updatedLikes := post.likes.filter (fun id => id != userId)
      (⟨200, .likes updatedLikes⟩, { s with posts := posts1, users := users1 })
    else
      if post.user == userId then
        (⟨401, .error "You cannot like your own post"⟩, s)
      else
        let post1 := { post with likes := post.likes ++ [userId] }
        let users1 := updateOne (fun u => u._id == userId)
          (fun u => { u with likedPosts := u.likedPosts ++ [postId] }) s.users
        let posts1 := Post.save s.posts post1
        let notification := kudosNotification now post1 postId
        let updatedLikes := post1.likes
        (⟨200, .likes updatedLikes⟩,
          { s with posts := posts1, users := users1,
                   notifications := s.notifications ++ [notification] })

/-! ## Feeds -/

/-- Projection `select: "-password"`. -/
def publicView (u : User) : PublicUser :=
  { _id := u._id, username := u.username, following := u.following,
    likedPosts := u.likedPosts }

/-- Population of one user reference. -/
def populateUser (users : List User) (id : Id) : Option PublicUser :=
  (User.findById users id).map publicView

/-- The two `.populate` calls: path `user` and path `comments.user`. -/
def populate (users : List User) (p : Post) : PopulatedPost :=
  { _id := p._id
    user := populateUser users p.user
    text := p.text
    img := p.img
    likes := p.likes
    comments := p.comments.map (fun c => ⟨populateUser users c.user, c.text⟩)
    createdAt := p.createdAt }

/-- Counterpart of `.sort({createdAt: -1})`; documents with equal timestamps
keep their natural order. -/
def sortByCreatedAtDesc (ps : List Post) : List Post :=
  ps.insertionSort (fun a b => a.createdAt ≥ b.createdAt)

/-- Controller `getFollowingPosts`; `userId` is `req.user._id`. -/
def getFollowingPosts (s : State) (userId : Id) : Response :=
  match User.findById s.users userId with
  | none => ⟨404, .error "User not found"⟩
  | some user =>
    let following := user.following
    let feedPosts := (sortByCreatedAtDesc
      (s.posts.filter (fun p => following.contains p.user))).map (populate s.users)
    ⟨200, .feed feedPosts⟩

/-- Counterpart of `User.findOne({userId})`: the filter names the path
`userId`, which the User schema does not have.  With Mongoose's `strictQuery`
on, the unknown path is dropped, the filter is `{}` and the first user of the
collection is returned.  With it off the filter reaches the database, where no
stored user has a `userId` field, and nothing is found. -/
def User.findOneUserId (strictQuery : Bool) (users : List User) (_userId : Id) :
    Option User :=
  if strictQuery then users.head? else none

/-- Controller `getMyActivities`; `userId` is `req.user._id`. -/
def getMyActivities (strictQuery : Bool) (s : State) (userId : Id) : Response :=
  match User.findOneUserId strictQuery s.users userId with
  | none => ⟨404, .error "User not found"⟩
  | some user =>
    let posts := (sortByCreatedAtDesc
      (s.posts.filter (fun p => p.user == user._id))).map (populate s.users)
    ⟨200, .feed posts⟩

/-- Controller `getUserPosts`; `username` is `req.params.username`. -/
def getUserPosts (s : State) (username : String) : Response :=
  match User.findByUsername s.users username with
  | none => ⟨404, .error "User not found"⟩
  | some user =>
    let posts := (sortByCreatedAtDesc
      (s.posts.filter (fun p => p.user == user._id))).map (populate s.users)
    ⟨200, .feed posts⟩

/-! ## createPost -/

/-- Controller `createPost`.  `upload` is `cloudinary.uploader.upload`: it
returns the `secure_url` or throws with a message.  `freshId` is the ObjectId
given to the new document and `now` its creation time.  `text` and `img` are
the body fields (`none` when missing). -/
def createPost (upload : String → Except String String) (freshId now : Nat)
    (s : State) (userId : Id) (text img : Option String) : Response × State :=
  match User.findById s.users userId with
  | none => (⟨404, .error "User not found"⟩, s)
  | some _ =>
    if !truthy text && !truthy img then
      (⟨400, .error "Please provide text or image"⟩, s)
    else
      let store (s1 : State) (img1 : Option String) : Response × State :=
        let newPost : Post :=
          { _id := freshId, user := userId, text := text, img := img1,
            likes := [], comments := [], createdAt := now }
        (⟨201, .post newPost⟩, { s1 with posts := s1.posts ++ [newPost] })
      if truthy img then
        let payload := img.getD ""
        let s1 := { s with media := s.media ++ [MediaCall.upload payload] }
        match upload payload with
        | .error msg => (⟨500, .error msg⟩, s1)
        | .ok url => store s1 (some url)
      else store s img

/-! ## commentOnPost -/

/-- The notification built by `commentOnPost`; the same `undefined` reads as
in `kudosNotification`. -/
def commentNotification (now : Nat) (post : Post) : Notification :=
  { to_ := post.user
    icon := none
    title := "New Comment"
    text := "undefined undefined commented on undefined!"
    actionable_link := "/post/" ++ toString post._id
    display_date := now
    read := false
    category := "comment" }

/-- Controller `commentOnPost`; `userId` is `req.user._id`, `postId` is the
value the controller reads from `req.params._id`, `text` is the body field. -/
def commentOnPost (now : Nat) (s : State) (userId postId : Id)
    (text : Option String) : Response × State :=
  if !truthy text then
    (⟨400, .error "Comment must have text"⟩, s)
  else
    match Post.findById s.posts postId with
    | none => (⟨404, .error "Post not found"⟩, s)
    | some post =>
      let newComment : Comment := { user := userId, text := text.getD "" }
      let post1 := { post with comments := post.comments ++ [newComment] }
      let posts1 := Post.save s.posts post1
      let notification := commentNotification now post1
      (⟨200, .post post1⟩,
        { s with posts := posts1,
                 notifications := s.notifications ++ [notification] })

/-! ## deletePost -/

/-- Built-in function objects met by `deletePost`. -/
inductive Builtin where
  | stringSplit
  | arrayPop
deriving DecidableEq, Repr

/-- The JavaScript values met while `deletePost` computes the asset id. -/
inductive JsVal where
  | undefined
  | str (s : String)
  | arr (xs : List String)
  | fn (b : Builtin)
deriving DecidableEq, Repr

/-- Property read `v.name`.  A string has `split`, an array has `pop`; a
function object has neither. -/
def JsVal.get : JsVal → String → JsVal
  | .str _, "split" => .fn .stringSplit
  | .arr _, "pop" => .fn .arrayPop
  | _, _ => .undefined

/-- Method call `recv.name(arg)`: reads the property and calls it with `recv`
as `this`; calling a value that is not a function throws a `TypeError`. -/
def JsVal.callMethod (recv : JsVal) (name : String) (arg : String) :
    Except String JsVal :=
  match recv.get name, recv with
  | .fn .stringSplit, .str s => .ok (.arr (s.splitOn arg))
  | .fn .arrayPop, .arr xs =>
    .ok (match xs.getLast? with
      | some x => .str x
      | none => .undefined)
  | _, _ => .error ("TypeError: " ++ name ++ " is not a function")

/-- Indexing `v[0]`. -/
def JsVal.first : JsVal → JsVal
  | .arr (x :: _) => .str x
  | _ => .undefined

/-- The expression `post.img.split("/").pop.split(".")[0]`, as written:
`pop` is read, not called. -/
def imgIdOf (img : String) : Except String JsVal := do
  let parts ← (JsVal.str img).callMethod "split" "/"
  let popped := parts.get "pop"
  let pieces ← popped.callMethod "split" "."
  return pieces.first

/-- Text form of the argument handed to `cloudinary.uploader.destroy`. -/
def JsVal.asPublicId : JsVal → String
  | .str s => s
  | _ => "undefined"

/-- Controller `deletePost`; `userId` is `req.user._id`, `postId` is the value
the controller reads from `req.params._id`.  Any exception is caught and
answered with 500. -/
def deletePost (s : State) (userId postId : Id) : Response × State :=
  match Post.findById s.posts postId with
  | none => (⟨404, .error "Post not found"⟩, s)
  | some post =>
    if post.user != userId then
      (⟨401, .error "You are not authorized to delete this post"⟩, s)
    else
      let finish (s1 : State) : Response × State :=
        (⟨200, .message "Post deleted successfully"⟩,
          { s1 with posts := deleteOne (fun p => p._id == postId) s1.posts })
      if truthy post.img then
        match imgIdOf (post.img.getD "") with
        | .error _ => (⟨500, .error "Internal Server Error"⟩, s)
        | .ok imgId =>
          finish { s with media := s.media ++ [MediaCall.destroy imgId.asPublicId] }
      else finish s

/-! ## Sample data -/

/-- User 1, follows nobody. -/
def alice : User :=
  { _id := 1, username := "alice", password := "pw-a", following := [], likedPosts := [] }

/-- User 2, follows alice. -/
def bob : User :=
  { _id := 2, username := "bob", password := "pw-b", following := [1], likedPosts := [] }

/-- User 2 again, with post 10 already recorded in `likedPosts`. -/
def bobStale : User :=
  { bob with likedPosts := [10] }

/-- Alice's older post, text only. -/
def postA1 : Post :=
  { _id := 10, user := 1, text := some "morning run", img := none, likes := [],
    comments := [⟨2, "nice"⟩], createdAt := 100 }

/-- Alice's newer post, text only. -/
def postA2 : Post :=
  { _id := 11, user := 1, text := some "evening ride", img := none, likes := [],
    comments := [], createdAt := 300 }

/-- Bob's post, carrying an image URL. -/
def postB1 : Post :=
  { _id := 20, user := 2, text := some "trail",
    img := some "https://res.cloudinary.com/demo/image/upload/v1/abc.png",
    likes := [1], comments := [], createdAt := 200 }

/-- Two users, three posts, nothing else. -/
def sampleState : State :=
  { users := [alice, bob], posts := [postA1, postB1, postA2],
    notifications := [], media := [] }

/-- As `sampleState`, but bob's `likedPosts` holds post 10 although post 10's
`likes` does not hold bob. -/
def staleState : State :=
  { sampleState with users := [alice, bobStale] }

/-- An uploader that always succeeds. -/
def sampleUpload : String → Except String String :=
  fun payload => .ok ("https://res.cloudinary.com/demo/" ++ payload)

/-! ## Theorems -/

/-! ## Lemmas on the collection primitives -/

theorem find_updateOne {α : Type} (sel : α → Bool) (f : α → α)
    (hf : ∀ x, sel x = true → sel (f x) = true) (l : List α) :
    (updateOne sel f l).find? sel = (l.find? sel).map f := by
  induction l with
  | nil => rfl
  | cons x xs ih =>
    by_cases hx : sel x = true
    · simp [updateOne, hx, hf x hx]
    · simp [updateOne, hx, ih]

theorem updateOne_updateOne {α : Type} (sel : α → Bool) (f g : α → α)
    (hf : ∀ x, sel x = true → sel (f x) = true) (l : List α) :
    updateOne sel g (updateOne sel f l) = updateOne sel (fun x => g (f x)) l := by
  induction l with
  | nil => rfl
  | cons x xs ih =>
    by_cases hx : sel x = true
    · simp [updateOne, hx, hf x hx]
    · simp [updateOne, hx, ih]

theorem updateOne_eq_self {α : Type} (sel : α → Bool) (f : α → α) (l : List α)
    (hfix : ∀ x, l.find? sel = some x → f x = x) : updateOne sel f l = l := by
  induction l with
  | nil => rfl
  | cons x xs ih =>
    by_cases hx : sel x = true
    · simp [updateOne, hx, hfix x (by simp [hx])]
    · have hxs : ∀ y, xs.find? sel = some y → f y = y := by
        intro y hy
        exact hfix y (by simpa [List.find?, hx] using hy)
      simp [updateOne, hx, ih hxs]

theorem Post.findById_id {posts : List Post} {id : Id} {post : Post}
    (h : Post.findById posts id = some post) : post._id = id := by
  have := List.find?_some h
  simpa using this

theorem Post.findById_save {posts : List Post} {id : Id} {post : Post}
    (h : Post.findById posts id = some post) (doc : Post) (hdoc : doc._id = id) :
    Post.findById (Post.save posts doc) id = some doc := by
  unfold Post.findById Post.save at *
  rw [hdoc, find_updateOne _ _ (by intro x _; simp [hdoc]), h]
  rfl

theorem pull_append_self (xs : List Id) (x : Id) (hx : x ∉ xs) :
    pull (xs ++ [x]) x = xs := by
  unfold pull
  rw [List.filter_append]
  simp
  intro a ha hax
  exact hx (hax ▸ ha)

theorem imgIdOf_throws (img : String) :
    imgIdOf img = .error "TypeError: split is not a function" := by
  simp [imgIdOf, JsVal.callMethod, JsVal.get, bind, Except.bind]

theorem deletePost_with_image_throws (s : State) (U P : Id) (post : Post)
    (hfind : Post.findById s.posts P = some post) (hown : post.user = U)
    (himg : truthy post.img = true) :
    deletePost s U P = (⟨500, .error "Internal Server Error"⟩, s) := by
  simp [deletePost, hfind, hown, himg, imgIdOf_throws]

/-- C1: a caller who owns the post and is not among its likes gets 401 from
`likePost`, and the state after the call is the state before it. -/
theorem likePost_self_like_rejected (now : Nat) (s : State) (U P : Id) (post : Post)
    (hfind : Post.findById s.posts P = some post) (hown : post.user = U)
    (hnot : U ∉ post.likes) :
    likePost now s U P = (⟨401, .error "You cannot like your own post"⟩, s) ∧
    (Post.findById (likePost now s U P).2.posts P).map (fun p => p.likes)
      = some post.likes ∧
    (likePost now s U P).2.users = s.users ∧
    (likePost now s U P).2.notifications = s.notifications := by
  have h : likePost now s U P = (⟨401, .error "You cannot like your own post"⟩, s) := by
    simp [likePost, hfind, hown, hnot]
  simp [h, hfind]

/-- C7: `deletePost` by a caller who is not the owner answers 401, sends
nothing to the uploader and leaves the post stored as it was. -/
theorem deletePost_non_owner_rejected (s : State) (U P : Id) (post : Post)
    (hfind : Post.findById s.posts P = some post) (hown : post.user ≠ U) :
    (deletePost s U P).1 =
      ⟨401, .error "You are not authorized to delete this post"⟩ ∧
    (deletePost s U P).2.media = s.media ∧
    Post.findById (deletePost s U P).2.posts P = some post ∧
    (deletePost s U P).2 = s := by
  have h : deletePost s U P =
      (⟨401, .error "You are not authorized to delete this post"⟩, s) := by
    simp [deletePost, hfind, hown]
  simp [h, hfind]

/-- C8: `commentOnPost` with a non-empty text on an existing post answers 200
and the stored comment sequence is the old one followed by the new comment. -/
theorem commentOnPost_appends (now : Nat) (s : State) (U P : Id) (t : String)
    (post : Post) (ht : t ≠ "")
    (hfind : Post.findById s.posts P = some post) :
    (commentOnPost now s U P (some t)).1 =
      ⟨200, .post { post with comments := post.comments ++ [⟨U, t⟩] }⟩ ∧
    (Post.findById (commentOnPost now s U P (some t)).2.posts P).map
      (fun p => p.comments) = some (post.comments ++ [⟨U, t⟩]) := by
  have hid := Post.findById_id hfind
  have hsave := Post.findById_save hfind
    { post with comments := post.comments ++ [⟨U, t⟩] } hid
  simp [commentOnPost, truthy, ht, hfind, hsave]

/-- C4: when `likePost` answers 200, a like adds exactly one notification,
addressed to the post's owner, of category "kudos" and unread; an unlike
leaves the notifications as they were. -/
theorem likePost_notification (now : Nat) (s : State) (U P : Id)
    (hok : (likePost now s U P).1.status = 200) :
    ∃ post, Post.findById s.posts P = some post ∧
      (U ∉ post.likes →
        ∃ n, (likePost now s U P).2.notifications = s.notifications ++ [n] ∧
          n.to_ = post.user ∧ n.category = "kudos" ∧ n.read = false) ∧
      (U ∈ post.likes →
        (likePost now s U P).2.notifications = s.notifications) := by
  cases hfind : Post.findById s.posts P with
  | none => simp [likePost, hfind] at hok
  | some post =>
    refine ⟨post, rfl, ?_, ?_⟩
    · intro hnot
      by_cases hown : post.user = U
      · simp [likePost, hfind, hnot, hown] at hok
      · exact ⟨kudosNotification now { post with likes := post.likes ++ [U] } P,
          by simp [likePost, hfind, hnot, hown], rfl, rfl, rfl⟩
    · intro hin
      simp [likePost, hfind, hin]

/-- C10: when `likePost` answers 200, the body is the likes array of the post
as stored after the call: the old array with the caller appended on a like,
the old array without any occurrence of the caller on an unlike. -/
theorem likePost_body_is_stored_likes (now : Nat) (s : State) (U P : Id)
    (hok : (likePost now s U P).1.status = 200) :
    ∃ post after, Post.findById s.posts P = some post ∧
      Post.findById (likePost now s U P).2.posts P = some after ∧
      (likePost now s U P).1.body = .likes after.likes ∧
      (U ∉ post.likes → after.likes = post.likes ++ [U]) ∧
      (U ∈ post.likes → after.likes = post.likes.filter (fun id => id ≠ U)) := by
  cases hfind : Post.findById s.posts P with
  | none => simp [likePost, hfind] at hok
  | some post =>
    have hid := Post.findById_id hfind
    by_cases hin : U ∈ post.likes
    · have hupd : Post.findById (updateOne (fun p => p._id == P)
          (fun p => { p with likes := pull p.likes U }) s.posts) P
          = some { post with likes := pull post.likes U } := by
        unfold Post.findById at *
        rw [find_updateOne _ _ (by intro x hx; simpa using hx), hfind]
        rfl
      refine ⟨post, { post with likes := pull post.likes U }, rfl, ?_, ?_, ?_, ?_⟩
      · simp [likePost, hfind, hin, hupd]
      · simp [likePost, hfind, hin, pull]
      · intro hnot; exact absurd hin hnot
      · intro _
        show List.filter (fun y => y != U) post.likes = _
        congr 1
        funext y
        by_cases h : y = U <;> simp [h]
    · by_cases hown : post.user = U
      · simp [likePost, hfind, hin, hown] at hok
      · have hsave := Post.findById_save hfind
          { post with likes := post.likes ++ [U] } hid
        refine ⟨post, { post with likes := post.likes ++ [U] }, rfl, ?_, ?_, ?_, ?_⟩
        · simp [likePost, hfind, hin, hown, hsave]
        · simp [likePost, hfind, hin, hown]
        · intro _; rfl
        · intro h; exact absurd h hin

/-- C2 (amended): for a caller who is not the owner, is not among the post's
likes and whose own `likedPosts` does not already hold the post, a like
followed by an unlike answers 200 twice and puts the post's `likes` and the
caller's `likedPosts` back to what they were; the posts and users collections
end up as they started. -/
theorem likePost_twice_restores (now1 now2 : Nat) (s : State) (U P : Id) (post : Post)
    (hfind : Post.findById s.posts P = some post) (hown : post.user ≠ U)
    (hnot : U ∉ post.likes)
    (hfresh : ∀ u, User.findById s.users U = some u → P ∉ u.likedPosts) :
    (likePost now1 s U P).1.status = 200 ∧
    (likePost now2 (likePost now1 s U P).2 U P).1.status = 200 ∧
    (Post.findById (likePost now2 (likePost now1 s U P).2 U P).2.posts P).map
      (fun p => p.likes) = some post.likes ∧
    (User.findById (likePost now2 (likePost now1 s U P).2 U P).2.users U).map
      (fun u => u.likedPosts) = (User.findById s.users U).map (fun u => u.likedPosts) ∧
    (likePost now2 (likePost now1 s U P).2 U P).2.posts = s.posts ∧
    (likePost now2 (likePost now1 s U P).2 U P).2.users = s.users := by
  have hid := Post.findById_id hfind
  have hsave := Post.findById_save hfind { post with likes := post.likes ++ [U] } hid
  have h1 : likePost now1 s U P = (⟨200, .likes (post.likes ++ [U])⟩,
      { s with posts := Post.save s.posts { post with likes := post.likes ++ [U] },
               users := updateOne (fun u => u._id == U)
                 (fun u => { u with likedPosts := u.likedPosts ++ [P] }) s.users,
               notifications := s.notifications ++
                 [kudosNotification now1 { post with likes := post.likes ++ [U] } P] }) := by
    simp [likePost, hfind, hnot, hown]
  have hposts : updateOne (fun p => p._id == P)
      (fun p => { p with likes := pull p.likes U })
      (Post.save s.posts { post with likes := post.likes ++ [U] }) = s.posts := by
    unfold Post.save
    simp only [hid]
    rw [updateOne_updateOne _ _ _ (by intro x _; simp [hid])]
    apply updateOne_eq_self
    intro x hx
    have hx' : x = post := by
      unfold Post.findById at hfind
      rw [hfind] at hx
      exact (Option.some.inj hx).symm
    subst hx'
    simp only [pull_append_self _ _ hnot]
    cases x
    simp at hid ⊢
    exact hid.symm
  have husers : updateOne (fun u => u._id == U)
      (fun u => { u with likedPosts := pull u.likedPosts P })
      (updateOne (fun u => u._id == U)
        (fun u => { u with likedPosts := u.likedPosts ++ [P] }) s.users) = s.users := by
    rw [updateOne_updateOne _ _ _ (by intro x hx; simpa using hx)]
    apply updateOne_eq_self
    intro x hx
    simp [pull_append_self _ _ (hfresh x hx)]
  have h2 : likePost now2 (likePost now1 s U P).2 U P =
      (⟨200, .likes ((post.likes ++ [U]).filter (fun id => id != U))⟩,
        { s with notifications := s.notifications ++
            [kudosNotification now1 { post with likes := post.likes ++ [U] } P] }) := by
    rw [h1]
    simp [likePost, hsave, hposts, husers]
  rw [h2, h1]
  simp [hfind]

theorem sortByCreatedAtDesc_sorted (ps : List Post) :
    (sortByCreatedAtDesc ps).Sorted (fun a b => a.createdAt ≥ b.createdAt) := by
  haveI : IsTotal Post (fun a b => a.createdAt ≥ b.createdAt) :=
    ⟨fun a b => Nat.le_total b.createdAt a.createdAt⟩
  haveI : IsTrans Post (fun a b => a.createdAt ≥ b.createdAt) :=
    ⟨fun _ _ _ hab hbc => Nat.le_trans hbc hab⟩
  exact List.sorted_insertionSort _ ps

theorem sortByCreatedAtDesc_perm (ps : List Post) :
    (sortByCreatedAtDesc ps).Perm ps :=
  List.perm_insertionSort _ ps

theorem getMyActivities_lax_not_found (s : State) (U : Id) :
    getMyActivities false s U = ⟨404, .error "User not found"⟩ := by
  simp [getMyActivities, User.findOneUserId]

theorem getMyActivities_strict_first_user (s : State) (U : Id) (u : User)
    (rest : List User) (hu : s.users = u :: rest) :
    getMyActivities true s U = ⟨200, .feed ((sortByCreatedAtDesc
      (s.posts.filter (fun p => p.user == u._id))).map (populate s.users))⟩ := by
  simp [getMyActivities, User.findOneUserId, hu]

theorem populate_user_id (users : List User) (p : Post) (pu : PublicUser)
    (h : (populate users p).user = some pu) : pu._id = p.user := by
  unfold populate populateUser User.findById at h
  cases hf : List.find? (fun u => u._id == p.user) users with
  | none => simp [hf] at h
  | some u =>
    have hid := List.find?_some hf
    rw [hf] at h
    have hpu : publicView u = pu := Option.some.inj h
    rw [← hpu]
    simpa [publicView] using hid

/-- C9: for a caller whose user document exists, `getFollowingPosts` answers
200 with a body that lists exactly the stored posts whose owner is in the
caller's `following`: the body is sorted by `createdAt` descending, its `_id`s
are a permutation of those posts' `_id`s, every entry carries the `_id`,
`createdAt`, text, image and likes of such a post, and an entry's populated
author is a followed user; with an empty `following` the body is the empty
sequence. -/
theorem getFollowingPosts_feed (s : State) (U : Id) (user : User)
    (hu : User.findById s.users U = some user) :
    ∃ (ps : List Post) (body : List PopulatedPost),
      getFollowingPosts s U = ⟨200, .feed body⟩ ∧
      body = ps.map (populate s.users) ∧
      ps.Perm (s.posts.filter (fun p => decide (p.user ∈ user.following))) ∧
      ps.Sorted (fun a b => a.createdAt ≥ b.createdAt) ∧
      (∀ p, p ∈ ps ↔ p ∈ s.posts ∧ p.user ∈ user.following) ∧
      List.Forall₂ (fun (b : PopulatedPost) (p : Post) =>
        b._id = p._id ∧ b.createdAt = p.createdAt ∧ b.text = p.text ∧
        b.img = p.img ∧ b.likes = p.likes ∧
        b.comments.map (fun c => c.text) = p.comments.map (fun c => c.text)) body ps ∧
      body.Sorted (fun a b => a.createdAt ≥ b.createdAt) ∧
      (body.map (fun b => b._id)).Perm
        ((s.posts.filter (fun p => decide (p.user ∈ user.following))).map
          (fun p => p._id)) ∧
      (∀ b ∈ body, ∃ p ∈ s.posts, p.user ∈ user.following ∧ b._id = p._id ∧
        b.createdAt = p.createdAt ∧ b.text = p.text ∧ b.img = p.img ∧
        b.likes = p.likes) ∧
      (∀ p ∈ s.posts, p.user ∈ user.following → ∃ b ∈ body, b._id = p._id ∧
        b.createdAt = p.createdAt ∧ b.text = p.text ∧ b.img = p.img ∧
        b.likes = p.likes) ∧
      (∀ b ∈ body, ∀ pu, b.user = some pu → pu._id ∈ user.following) ∧
      (user.following = [] → getFollowingPosts s U = ⟨200, .feed []⟩) := by
  have hfilter : (fun p : Post => user.following.contains p.user)
      = (fun p : Post => decide (p.user ∈ user.following)) := by
    funext p
    simp
  have hmem : ∀ p, p ∈ sortByCreatedAtDesc
        (s.posts.filter (fun p => decide (p.user ∈ user.following)))
      ↔ p ∈ s.posts ∧ p.user ∈ user.following := by
    intro p
    rw [(sortByCreatedAtDesc_perm _).mem_iff]
    simp
  refine ⟨sortByCreatedAtDesc (s.posts.filter (fun p => decide (p.user ∈ user.following))),
    _, ?_, rfl, sortByCreatedAtDesc_perm _, sortByCreatedAtDesc_sorted _, hmem,
    ?_, ?_, ?_, ?_, ?_, ?_, ?_⟩
  · simp only [getFollowingPosts, hu, hfilter]
  · rw [List.forall₂_map_left_iff]
    exact List.forall₂_same.mpr (fun p _ => by simp [populate])
  · have hs := sortByCreatedAtDesc_sorted
      (s.posts.filter (fun p => decide (p.user ∈ user.following)))
    unfold List.Sorted at hs ⊢
    rw [List.pairwise_map]
    exact hs
  · have hp := (sortByCreatedAtDesc_perm
      (s.posts.filter (fun p => decide (p.user ∈ user.following)))).map
      (fun p => p._id)
    simpa [List.map_map, populate] using hp
  · intro b hb
    obtain ⟨p, hp, rfl⟩ := List.mem_map.mp hb
    have := (hmem p).mp hp
    exact ⟨p, this.1, this.2, by simp [populate]⟩
  · intro p hp hfol
    exact ⟨populate s.users p, List.mem_map.mpr ⟨p, (hmem p).mpr ⟨hp, hfol⟩, rfl⟩,
      by simp [populate]⟩
  · intro b hb pu hpu
    obtain ⟨p, hp, rfl⟩ := List.mem_map.mp hb
    rw [populate_user_id s.users p pu hpu]
    exact ((hmem p).mp hp).2
  · intro hempty
    simp [getFollowingPosts, hu, hempty, sortByCreatedAtDesc]

/-- C6 (amended): `createPost` with text and image both empty or missing
creates no post and sends nothing to the uploader (the state is unchanged);
it answers 400 when the caller's user document exists and 404 when it does
not. -/
theorem createPost_empty_rejected (upload : String → Except String String)
    (freshId now : Nat) (s : State) (U : Id) (text img : Option String)
    (ht : text = none ∨ text = some "") (hi : img = none ∨ img = some "") :
    (createPost upload freshId now s U text img).2 = s ∧
    (createPost upload freshId now s U text img).2.posts = s.posts ∧
    (createPost upload freshId now s U text img).2.media = s.media ∧
    ((User.findById s.users U).isSome = true →
      (createPost upload freshId now s U text img).1
        = ⟨400, .error "Please provide text or image"⟩) ∧
    (User.findById s.users U = none →
      (createPost upload freshId now s U text img).1
        = ⟨404, .error "User not found"⟩) := by
  have htf : truthy text = false := by
    rcases ht with h | h <;> simp [h, truthy]
  have hif : truthy img = false := by
    rcases hi with h | h <;> simp [h, truthy]
  cases hu : User.findById s.users U with
  | none => simp [createPost, hu]
  | some u => simp [createPost, hu, htf, hif]

/-- Witness for C1: alice on her own post 10. -/
theorem likePost_self_like_rejected_witness :
    Post.findById sampleState.posts 10 = some postA1 ∧ postA1.user = 1 ∧
    1 ∉ postA1.likes ∧
    (likePost 5 sampleState 1 10
        = (⟨401, .error "You cannot like your own post"⟩, sampleState) ∧
      (Post.findById (likePost 5 sampleState 1 10).2.posts 10).map (fun p => p.likes)
        = some postA1.likes ∧
      (likePost 5 sampleState 1 10).2.users = sampleState.users ∧
      (likePost 5 sampleState 1 10).2.notifications = sampleState.notifications) :=
  ⟨by decide, by decide, by decide,
    likePost_self_like_rejected 5 sampleState 1 10 postA1 (by decide) (by decide)
      (by decide)⟩

/-- C2 fails as stated: in `staleState` bob is neither owner nor liker of post
10, yet after like and unlike his `likedPosts` is `[]`, not `[10]`. -/
theorem likePost_twice_counterexample :
    Post.findById staleState.posts 10 = some postA1 ∧ postA1.user ≠ 2 ∧
    2 ∉ postA1.likes ∧
    (User.findById staleState.users 2).map (fun u => u.likedPosts) = some [10] ∧
    (User.findById (likePost 6 (likePost 5 staleState 2 10).2 2 10).2.users 2).map
      (fun u => u.likedPosts) = some [] ∧
    (User.findById (likePost 6 (likePost 5 staleState 2 10).2 2 10).2.users 2).map
      (fun u => u.likedPosts)
      ≠ (User.findById staleState.users 2).map (fun u => u.likedPosts) := by
  decide

/-- Witness for C2 (amended): bob likes and unlikes alice's post 10. -/
theorem likePost_twice_restores_witness :
    Post.findById sampleState.posts 10 = some postA1 ∧ postA1.user ≠ 2 ∧
    2 ∉ postA1.likes ∧
    (∀ u, User.findById sampleState.users 2 = some u → 10 ∉ u.likedPosts) ∧
    ((likePost 5 sampleState 2 10).1.status = 200 ∧
      (likePost 6 (likePost 5 sampleState 2 10).2 2 10).1.status = 200 ∧
      (Post.findById (likePost 6 (likePost 5 sampleState 2 10).2 2 10).2.posts 10).map
        (fun p => p.likes) = some postA1.likes ∧
      (User.findById (likePost 6 (likePost 5 sampleState 2 10).2 2 10).2.users 2).map
        (fun u => u.likedPosts)
        = (User.findById sampleState.users 2).map (fun u => u.likedPosts) ∧
      (likePost 6 (likePost 5 sampleState 2 10).2 2 10).2.posts = sampleState.posts ∧
      (likePost 6 (likePost 5 sampleState 2 10).2 2 10).2.users = sampleState.users) :=
  have hfresh : ∀ u, User.findById sampleState.users 2 = some u → 10 ∉ u.likedPosts := by
    intro u hu
    have hb : some bob = some u := hu
    cases hb
    decide
  ⟨by decide, by decide, by decide, hfresh,
    likePost_twice_restores 5 6 sampleState 2 10 postA1 (by decide) (by decide)
      (by decide) hfresh⟩

/-- C3, at the failing input: bob deletes his own post 20, which has an image.
The controller answers 500, sends nothing to the uploader and the post is
still stored. -/
theorem deletePost_owner_with_image :
    Post.findById sampleState.posts 20 = some postB1 ∧ postB1.user = 2 ∧
    truthy postB1.img = true ∧
    deletePost sampleState 2 20 = (⟨500, .error "Internal Server Error"⟩, sampleState) ∧
    Post.findById (deletePost sampleState 2 20).2.posts 20 = some postB1 ∧
    (deletePost sampleState 2 20).2.media = [] := by
  decide

/-- Witness for C4: bob likes alice's post 10. -/
theorem likePost_notification_witness :
    (likePost 5 sampleState 2 10).1.status = 200 ∧
    ∃ post, Post.findById sampleState.posts 10 = some post ∧
      (2 ∉ post.likes →
        ∃ n, (likePost 5 sampleState 2 10).2.notifications
            = sampleState.notifications ++ [n] ∧
          n.to_ = post.user ∧ n.category = "kudos" ∧ n.read = false) ∧
      (2 ∈ post.likes →
        (likePost 5 sampleState 2 10).2.notifications = sampleState.notifications) :=
  ⟨by decide, likePost_notification 5 sampleState 2 10 (by decide)⟩

/-- C5, at the failing input: bob asks for his own activities.  With
`strictQuery` on he gets alice's two posts; with it off he gets 404 although
his user document exists. -/
theorem getMyActivities_other_user :
    User.findById sampleState.users 2 = some bob ∧
    getMyActivities true sampleState 2
      = ⟨200, .feed [populate sampleState.users postA2,
                     populate sampleState.users postA1]⟩ ∧
    getMyActivities false sampleState 2 = ⟨404, .error "User not found"⟩ ∧
    sampleState.posts.filter (fun p => p.user == 2) = [postB1] := by
  decide

/-- C6 fails as stated: caller 3 has no user document, and `createPost` with
neither text nor image answers 404, not 400. -/
theorem createPost_empty_counterexample :
    User.findById sampleState.users 3 = none ∧
    (createPost sampleUpload 99 7 sampleState 3 none none).1
      = ⟨404, .error "User not found"⟩ ∧
    (createPost sampleUpload 99 7 sampleState 3 none none).1.status ≠ 400 := by
  decide

/-- Witness for C6 (amended): bob posts with a missing text and an empty
image. -/
theorem createPost_empty_rejected_witness :
    ((none : Option String) = none ∨ (none : Option String) = some "") ∧
    (some "" = (none : Option String) ∨ some "" = some "") ∧
    ((createPost sampleUpload 99 7 sampleState 2 none (some "")).2 = sampleState ∧
      (createPost sampleUpload 99 7 sampleState 2 none (some "")).2.posts
        = sampleState.posts ∧
      (createPost sampleUpload 99 7 sampleState 2 none (some "")).2.media
        = sampleState.media ∧
      ((User.findById sampleState.users 2).isSome = true →
        (createPost sampleUpload 99 7 sampleState 2 none (some "")).1
          = ⟨400, .error "Please provide text or image"⟩) ∧
      (User.findById sampleState.users 2 = none →
        (createPost sampleUpload 99 7 sampleState 2 none (some "")).1
          = ⟨404, .error "User not found"⟩)) :=
  ⟨Or.inl rfl, Or.inr rfl,
    createPost_empty_rejected sampleUpload 99 7 sampleState 2 none (some "")
      (Or.inl rfl) (Or.inr rfl)⟩

/-- Witness for C7: alice tries to delete bob's post 20. -/
theorem deletePost_non_owner_rejected_witness :
    Post.findById sampleState.posts 20 = some postB1 ∧ postB1.user ≠ 1 ∧
    ((deletePost sampleState 1 20).1
        = ⟨401, .error "You are not authorized to delete this post"⟩ ∧
      (deletePost sampleState 1 20).2.media = sampleState.media ∧
      Post.findById (deletePost sampleState 1 20).2.posts 20 = some postB1 ∧
      (deletePost sampleState 1 20).2 = sampleState) :=
  ⟨by decide, by decide,
    deletePost_non_owner_rejected sampleState 1 20 postB1 (by decide) (by decide)⟩

/-- Witness for C8: bob comments on alice's post 10, which has one comment. -/
theorem commentOnPost_appends_witness :
    "well done" ≠ "" ∧ Post.findById sampleState.posts 10 = some postA1 ∧
    ((commentOnPost 7 sampleState 2 10 (some "well done")).1
        = ⟨200, .post { postA1 with
            comments := postA1.comments ++ [⟨2, "well done"⟩] }⟩ ∧
      (Post.findById (commentOnPost 7 sampleState 2 10 (some "well done")).2.posts 10).map
        (fun p => p.comments) = some (postA1.comments ++ [⟨2, "well done"⟩])) :=
  ⟨by decide, by decide,
    commentOnPost_appends 7 sampleState 2 10 "well done" postA1 (by decide) (by decide)⟩

/-- Witness for C9: bob follows alice. -/
theorem getFollowingPosts_feed_witness :
    User.findById sampleState.users 2 = some bob ∧
    ∃ (ps : List Post) (body : List PopulatedPost),
      getFollowingPosts sampleState 2 = ⟨200, .feed body⟩ ∧
      body = ps.map (populate sampleState.users) ∧
      ps.Perm (sampleState.posts.filter (fun p => decide (p.user ∈ bob.following))) ∧
      ps.Sorted (fun a b => a.createdAt ≥ b.createdAt) ∧
      (∀ p, p ∈ ps ↔ p ∈ sampleState.posts ∧ p.user ∈ bob.following) ∧
      List.Forall₂ (fun (b : PopulatedPost) (p : Post) =>
        b._id = p._id ∧ b.createdAt = p.createdAt ∧ b.text = p.text ∧
        b.img = p.img ∧ b.likes = p.likes ∧
        b.comments.map (fun c => c.text) = p.comments.map (fun c => c.text)) body ps ∧
      body.Sorted (fun a b => a.createdAt ≥ b.createdAt) ∧
      (body.map (fun b => b._id)).Perm
        ((sampleState.posts.filter (fun p => decide (p.user ∈ bob.following))).map
          (fun p => p._id)) ∧
      (∀ b ∈ body, ∃ p ∈ sampleState.posts, p.user ∈ bob.following ∧ b._id = p._id ∧
        b.createdAt = p.createdAt ∧ b.text = p.text ∧ b.img = p.img ∧
        b.likes = p.likes) ∧
      (∀ p ∈ sampleState.posts, p.user ∈ bob.following → ∃ b ∈ body, b._id = p._id ∧
        b.createdAt = p.createdAt ∧ b.text = p.text ∧ b.img = p.img ∧
        b.likes = p.likes) ∧
      (∀ b ∈ body, ∀ pu, b.user = some pu → pu._id ∈ bob.following) ∧
      (bob.following = [] → getFollowingPosts sampleState 2 = ⟨200, .feed []⟩) :=
  ⟨by decide, getFollowingPosts_feed sampleState 2 bob (by decide)⟩

/-- Witness for C10: alice unlikes bob's post 20. -/
theorem likePost_body_is_stored_likes_witness :
    (likePost 5 sampleState 1 20).1.status = 200 ∧
    ∃ post after, Post.findById sampleState.posts 20 = some post ∧
      Post.findById (likePost 5 sampleState 1 20).2.posts 20 = some after ∧
      (likePost 5 sampleState 1 20).1.body = .likes after.likes ∧
      (1 ∉ post.likes → after.likes = post.likes ++ [1]) ∧
      (1 ∈ post.likes → after.likes = post.likes.filter (fun id => id ≠ 1)) :=
  ⟨by decide, likePost_body_is_stored_likes 5 sampleState 1 20 (by decide)⟩

end SyncSphere
